import Mathlib

/-
Verification of the auth-service core (signup / login / validate-token)
against its natural-language specification.

The embedding follows apps/auth-service/src/auth/auth.service.ts
(AuthService.signUp, AuthService.login, AuthService.validateToken,
AuthService.createUser, AuthService.findUserById) together with the
JwtModule.registerAsync configuration factory in app.module.ts /
auth.module.ts.  Effectful collaborators are made explicit:

  - the Prisma store is a `PrismaService` value: its `users` list is the
    table snapshot, and the three `fail*` fields inject a raised store
    error into the corresponding prisma call (`findFirst`, `findUnique`,
    `create`), modelling an infrastructure failure of that query;
  - `prisma.user.create` enforces the unique constraints of the users
    table (users_username_key, users_email_key from the migration) and
    raises the raw Prisma unique-constraint error P2002 on collision;
  - the JwtService collaborator is a record of its `sign` and `verify`
    functions; a thrown verification error is an `Except.error`;
  - bcrypt's salt (the randomness of `bcrypt.hash`) is an explicit
    `salt` argument threaded into the hashing call;
  - a TypeScript `throw` is `Except.error`; `signUp` additionally returns
    the resulting store snapshot so that store (non-)modification is
    observable.
-/

namespace AuthSpec

instance {ε α : Type} [DecidableEq ε] [DecidableEq α] : DecidableEq (Except ε α) := fun a b =>
  match a, b with
  | .ok x, .ok y =>
    if h : x = y then isTrue (by rw [h]) else isFalse (by intro hh; injection hh; contradiction)
  | .error x, .error y =>
    if h : x = y then isTrue (by rw [h]) else isFalse (by intro hh; injection hh; contradiction)
  | .ok _, .error _ => isFalse (by intro hh; cases hh)
  | .error _, .ok _ => isFalse (by intro hh; cases hh)

/-- Row of the users table as read by the service (interface UserData). -/
structure UserData where
  id : String
  username : String
  email : String
  password : String
  roles : List String
deriving Repr, DecidableEq

/-- Errors thrown across the service boundary: `new Error(msg)`,
`new UnauthorizedException(msg)`, or an error raised by the store
itself (identified by its code, e.g. Prisma's P2002). -/
inductive ThrownError where
  | error (message : String)
  | unauthorizedException (message : String)
  | storeError (code : String)
deriving Repr, DecidableEq

/-- The Prisma store collaborator: the current users table plus failure
injection for each prisma call the service makes (`some code` means that
call raises a store error with that code). -/
structure PrismaService where
  users : List UserData
  failFindFirst : Option String
  failFindUnique : Option String
  failCreate : Option String
deriving Repr, DecidableEq

/-- prisma.user.findFirst({ where: { email } }). -/
def prismaFindFirstByEmail (db : PrismaService) (email : String) :
    Except ThrownError (Option UserData) :=
  match db.failFindFirst with
  | some code => .error (.storeError code)
  | none => .ok (db.users.find? (fun u => u.email == email))

/-- prisma.user.findUnique({ where: { email } }). -/
def prismaFindUniqueByEmail (db : PrismaService) (email : String) :
    Except ThrownError (Option UserData) :=
  match db.failFindUnique with
  | some code => .error (.storeError code)
  | none => .ok (db.users.find? (fun u => u.email == email))

/-- prisma.user.findUnique({ where: { id } }). -/
def prismaFindUniqueById (db : PrismaService) (id : String) :
    Except ThrownError (Option UserData) :=
  match db.failFindUnique with
  | some code => .error (.storeError code)
  | none => .ok (db.users.find? (fun u => u.id == id))

/-- prisma.user.create({ data: ... }): the users table carries unique
indexes on username and on email, so a colliding insert raises the raw
Prisma unique-constraint error (code P2002); otherwise the row is
appended with a store-assigned fresh id. -/
def prismaUserCreate (db : PrismaService) (username email password : String)
    (roles : List String) : Except ThrownError (PrismaService × UserData) :=
  match db.failCreate with
  | some code => .error (.storeError code)
  | none =>
    if db.users.any (fun u => u.email == email || u.username == username) then
      .error (.storeError "P2002")
    else
      let user : UserData :=
        { id := "user-" ++ toString db.users.length
          username := username
          email := email
          password := password
          roles := roles }
      .ok ({ db with users := db.users ++ [user] }, user)

/-- bcrypt.hash(password, SALT_ROUNDS): one-way, salted; the salt is the
explicit randomness argument. -/
def bcryptHash (plaintext : String) (salt : String) : String :=
  "$2b$10$" ++ salt ++ "$" ++ plaintext

/-- bcrypt.compare(plaintext, hashed): true exactly when `hashed` parses
as a bcrypt digest whose plaintext part matches; false (no throw) for
malformed digests.  Stated over the character lists so it evaluates. -/
def bcryptCompare (plaintext hashed : String) : Bool :=
  (hashed.data.take 7 == "$2b$10$".data) &&
  (hashed.data.drop (hashed.data.length - (plaintext.data.length + 1)) ==
    ("$" ++ plaintext).data)

/-- JWT payload (class JwtPayload: userId, roles). -/
structure JwtPayload where
  userId : String
  roles : List String
deriving Repr, DecidableEq

/-- The JwtService collaborator: `sign` serializes and signs a payload,
`verify` checks signature and expiry and either returns the decoded
payload or throws. -/
structure JwtService where
  sign : JwtPayload → String
  verify : String → Except ThrownError JwtPayload

structure AuthSignUpRequestDto where
  username : String
  email : String
  password : String
  roles : Option (List String)
deriving Repr, DecidableEq

structure AuthSignUpResponseDto where
  id : String
  username : String
  email : String
  roles : List String
deriving Repr, DecidableEq

structure AuthLoginRequestDto where
  email : String
  password : String
deriving Repr, DecidableEq

/-- Public user fields returned by login (no password field exists). -/
structure PublicUser where
  id : String
  username : String
  email : String
  roles : List String
deriving Repr, DecidableEq

structure AuthLoginResponseDto where
  token : String
  user : PublicUser
deriving Repr, DecidableEq

/-- User projection returned by validateToken (interface ValidateTokenUser). -/
structure ValidateTokenUser where
  userId : String
  roles : List String
deriving Repr, DecidableEq

/-- class ValidateTokenResponseDto: valid flag plus nullable user. -/
structure ValidateTokenResponseDto where
  valid : Bool
  user : Option ValidateTokenUser
deriving Repr, DecidableEq

/-- AuthService.createUser: hashes the password with bcrypt and inserts
the row; roles defaults to the single role user when omitted. -/
def AuthService.createUser (db : PrismaService) (salt : String)
    (username email password : String) (roles : List String := ["user"]) :
    Except ThrownError (PrismaService × UserData) :=
  let hashedPassword := bcryptHash password salt
  prismaUserCreate db username email hashedPassword roles

/-- AuthService.findUserById: prisma.user.findUnique({ where: { id } }). -/
def AuthService.findUserById (db : PrismaService) (id : String) :
    Except ThrownError (Option UserData) :=
  prismaFindUniqueById db id

/-- AuthService.signUp, with the resulting store snapshot returned
alongside the thrown-or-returned outcome.  Mirrors the source order:
empty-field check, findFirst by email, createUser. -/
def AuthService.signUp (db : PrismaService) (salt : String)
    (dto : AuthSignUpRequestDto) :
    PrismaService × Except ThrownError AuthSignUpResponseDto :=
  if dto.email = "" ∨ dto.username = "" ∨ dto.password = "" then
    (db, .error (.error "Missing required fields: email, username, password"))
  else
    match prismaFindFirstByEmail db dto.email with
    | .error e => (db, .error e)
    | .ok (some _) => (db, .error (.error "Email already in use"))
    | .ok none =>
      match (match dto.roles with
             | some rs =>
               AuthService.createUser db salt dto.username dto.email dto.password rs
             | none =>
               AuthService.createUser db salt dto.username dto.email dto.password) with
      | .error e => (db, .error e)
      | .ok (db2, user) =>
        (db2, .ok { id := user.id
                    username := user.username
                    email := user.email
                    roles := user.roles })

/-- AuthService.login: findUnique by email, bcrypt.compare, then sign a
payload of the account's id and roles. -/
def AuthService.login (jwt : JwtService) (db : PrismaService)
    (credential : AuthLoginRequestDto) :
    Except ThrownError AuthLoginResponseDto :=
  match prismaFindUniqueByEmail db credential.email with
  | .error e => .error e
  | .ok none => .error (.unauthorizedException "Invalid credentials")
  | .ok (some user) =>
    if bcryptCompare credential.password user.password = false then
      .error (.unauthorizedException "Invalid credentials")
    else
      let payload : JwtPayload := { userId := user.id, roles := user.roles }
      let token := jwt.sign payload
      .ok { token := token
            user := { id := user.id
                      username := user.username
                      email := user.email
                      roles := user.roles } }

/-- AuthService.validateToken: the whole body runs inside try/catch, so a
throw from jwtService.verify AND a throw from the store lookup both land
in the catch, which returns the normal value valid:false/user:null. -/
def AuthService.validateToken (jwt : JwtService) (db : PrismaService)
    (token : String) : ValidateTokenResponseDto :=
  match jwt.verify token with
  | .error _ => { valid := false, user := none }
  | .ok decoded =>
    match prismaFindUniqueById db decoded.userId with
    | .error _ => { valid := false, user := none }
    | .ok none => { valid := false, user := none }
    | .ok (some user) =>
      { valid := true, user := some { userId := user.id, roles := user.roles } }

/-- ConfigService snapshot of the two environment variables the JWT
factory reads. -/
structure ConfigService where
  jwtSecret : Option String
  jwtExpiresIn : Option String
deriving Repr, DecidableEq

structure JwtModuleOptions where
  secret : String
  expiresIn : String
deriving Repr, DecidableEq

/-- The useFactory passed to JwtModule.registerAsync: secret falls back
to the built-in placeholder via the nullish-coalescing operator, and
expiresIn falls back to one hour. -/
def jwtModuleUseFactory (config : ConfigService) : JwtModuleOptions :=
  { secret := config.jwtSecret.getD "your_jwt_secret_change_me"
    expiresIn := config.jwtExpiresIn.getD "1h" }

/- Concrete fixtures used by witnesses and counterexamples. -/

def dbEmpty : PrismaService :=
  { users := [], failFindFirst := none, failFindUnique := none, failCreate := none }

def signupAliceDto : AuthSignUpRequestDto :=
  { username := "alice", email := "alice@x.com", password := "secret1", roles := none }

def aliceStored : UserData :=
  { id := "user-0"
    username := "alice"
    email := "alice@x.com"
    password := bcryptHash "secret1" "salt0"
    roles := ["user"] }

def dbAlice : PrismaService :=
  { users := [aliceStored], failFindFirst := none, failFindUnique := none, failCreate := none }

def respAlice : AuthSignUpResponseDto :=
  { id := "user-0", username := "alice", email := "alice@x.com", roles := ["user"] }

/-- A store whose queries all raise an infrastructure error. -/
def dbStoreDown : PrismaService :=
  { users := [aliceStored]
    failFindFirst := some "DB_DOWN"
    failFindUnique := some "DB_DOWN"
    failCreate := some "DB_DOWN" }

/-- A store that answers queries but whose insert raises an
infrastructure error. -/
def dbCreateDown : PrismaService :=
  { users := [], failFindFirst := none, failFindUnique := none, failCreate := some "DB_DOWN" }

/-- A JwtService whose verify accepts every token as the given payload. -/
def jwtStub (payload : JwtPayload) : JwtService :=
  { sign := fun _ => "signed", verify := fun _ => .ok payload }

/-- A JwtService whose verify throws on every token. -/
def jwtReject : JwtService :=
  { sign := fun _ => "signed", verify := fun _ => .error (.error "jwt malformed") }

/-- Fixture sanity check: dbAlice and respAlice are exactly the store and
response produced by the first successful signup of alice on the empty
store. -/
theorem dbAlice_is_first_signup :
    AuthService.signUp dbEmpty "salt0" signupAliceDto = (dbAlice, .ok respAlice) := by
  decide

/-- Fixture sanity check: a token carrying stale roles validates on
dbAlice with the store's current roles. -/
theorem dbAlice_validate_stale_admin :
    AuthService.validateToken (jwtStub { userId := "user-0", roles := ["admin"] })
      dbAlice "tok" =
      { valid := true, user := some { userId := "user-0", roles := ["user"] } } := by
  decide

/- Helper lemmas (shared; not tied to any single claim). -/

theorem validateToken_of_verify_ok (jwt : JwtService) (db : PrismaService) (token : String)
    (decoded : JwtPayload) (h : jwt.verify token = .ok decoded) :
    AuthService.validateToken jwt db token =
      match prismaFindUniqueById db decoded.userId with
      | .error _ => { valid := false, user := none }
      | .ok none => { valid := false, user := none }
      | .ok (some user) =>
        { valid := true, user := some { userId := user.id, roles := user.roles } } := by
  unfold AuthService.validateToken
  rw [h]

theorem prismaFindUniqueById_some_id (db : PrismaService) (i : String) (account : UserData)
    (h : prismaFindUniqueById db i = .ok (some account)) : account.id = i := by
  unfold prismaFindUniqueById at h
  cases hfl : db.failFindUnique with
  | some code => rw [hfl] at h; cases h
  | none =>
    rw [hfl] at h
    injection h with h
    have hp := List.find?_some (p := fun u : UserData => u.id == i) h
    have hp2 : (account.id == i) = true := hp
    exact eq_of_beq hp2

/-- C1: for every token whose ValidateToken result is valid:true, the
roles of the returned user equal the roles currently stored for the
claim's subject id, obtained by a fresh findById lookup, and not the
roles embedded in the token's claim (whenever the two differ, the result
carries the fresh ones). -/
theorem claim_C1_fresh_roles (jwt : JwtService) (db : PrismaService) (token : String)
    (decoded : JwtPayload) (u : ValidateTokenUser)
    (hverify : jwt.verify token = .ok decoded)
    (h : AuthService.validateToken jwt db token = { valid := true, user := some u }) :
    ∃ account : UserData,
      AuthService.findUserById db decoded.userId = .ok (some account) ∧
      u.roles = account.roles ∧
      (decoded.roles ≠ account.roles → u.roles ≠ decoded.roles) := by
  rw [validateToken_of_verify_ok jwt db token decoded hverify] at h
  unfold AuthService.findUserById
  cases u with
  | mk uid uroles =>
    cases hf : prismaFindUniqueById db decoded.userId with
    | error e => rw [hf] at h; simp at h
    | ok o =>
      cases o with
      | none => rw [hf] at h; simp at h
      | some account =>
        rw [hf] at h
        simp only [ValidateTokenResponseDto.mk.injEq, Option.some.injEq,
          ValidateTokenUser.mk.injEq, true_and] at h
        obtain ⟨h1, h2⟩ := h
        subst h1
        subst h2
        exact ⟨account, rfl, rfl, fun hne hcontra => hne hcontra.symm⟩

/-- C1 witness: a token stamped with stale roles admin validates against
a store in which the account now has roles user, and the fresh roles win. -/
theorem claim_C1_fresh_roles_witness :
    ∃ account : UserData,
      AuthService.findUserById dbAlice "user-0" = .ok (some account) ∧
      (ValidateTokenUser.mk "user-0" ["user"]).roles = account.roles ∧
      ((JwtPayload.mk "user-0" ["admin"]).roles ≠ account.roles →
        (ValidateTokenUser.mk "user-0" ["user"]).roles ≠ (JwtPayload.mk "user-0" ["admin"]).roles) :=
  claim_C1_fresh_roles (jwtStub (JwtPayload.mk "user-0" ["admin"])) dbAlice "tok"
    (JwtPayload.mk "user-0" ["admin"]) (ValidateTokenUser.mk "user-0" ["user"]) rfl (by decide)

/-- C2: validateToken is a total function into the response type (it never
throws: the whole body sits in try/catch), and on any token-verification
failure, as well as when the claim's subject is absent from the store, the
result is exactly valid:false with user:null. -/
theorem claim_C2_always_value (jwt : JwtService) (db : PrismaService) (token : String) :
    (∀ e, jwt.verify token = .error e →
      AuthService.validateToken jwt db token = { valid := false, user := none }) ∧
    (∀ decoded, jwt.verify token = .ok decoded →
      AuthService.findUserById db decoded.userId = .ok none →
      AuthService.validateToken jwt db token = { valid := false, user := none }) := by
  constructor
  · intro e he
    unfold AuthService.validateToken
    rw [he]
  · intro decoded hok hnone
    rw [validateToken_of_verify_ok jwt db token decoded hok]
    unfold AuthService.findUserById at hnone
    rw [hnone]

/-- C2 witness: a garbage token, and a well-signed token whose subject was
deleted from the store, both yield the value valid:false/user:null. -/
theorem claim_C2_always_value_witness :
    AuthService.validateToken jwtReject dbAlice "not-a-jwt" = { valid := false, user := none } ∧
    AuthService.validateToken (jwtStub (JwtPayload.mk "ghost" ["user"])) dbAlice "tok" =
      { valid := false, user := none } :=
  ⟨(claim_C2_always_value jwtReject dbAlice "not-a-jwt").1 (.error "jwt malformed") rfl,
   (claim_C2_always_value (jwtStub (JwtPayload.mk "ghost" ["user"])) dbAlice "tok").2
     (JwtPayload.mk "ghost" ["user"]) rfl (by decide)⟩

/-- C10: every ValidateToken result has valid:true exactly when the user
field is non-null, and a returned user's userId is the subject decoded
from the token's claim. -/
theorem claim_C10_result_shape (jwt : JwtService) (db : PrismaService) (token : String) :
    ((AuthService.validateToken jwt db token).valid = true ↔
      (AuthService.validateToken jwt db token).user ≠ none) ∧
    (∀ decoded u, jwt.verify token = .ok decoded →
      (AuthService.validateToken jwt db token).user = some u →
      u.userId = decoded.userId) := by
  constructor
  · cases hv : jwt.verify token with
    | error e =>
      unfold AuthService.validateToken
      rw [hv]
      simp
    | ok decoded =>
      rw [validateToken_of_verify_ok jwt db token decoded hv]
      cases hf : prismaFindUniqueById db decoded.userId with
      | error e => simp
      | ok o =>
        cases o with
        | none => simp
        | some user => simp
  · intro decoded u hok huser
    rw [validateToken_of_verify_ok jwt db token decoded hok] at huser
    cases hf : prismaFindUniqueById db decoded.userId with
    | error e => rw [hf] at huser; simp at huser
    | ok o =>
      cases o with
      | none => rw [hf] at huser; simp at huser
      | some account =>
        rw [hf] at huser
        simp only [Option.some.injEq] at huser
        rw [← huser]
        exact prismaFindUniqueById_some_id db decoded.userId account hf

/-- C10 witness: concrete validation result with matching subject id. -/
theorem claim_C10_result_shape_witness :
    ((AuthService.validateToken (jwtStub (JwtPayload.mk "user-0" ["admin"])) dbAlice "tok").valid = true ↔
      (AuthService.validateToken (jwtStub (JwtPayload.mk "user-0" ["admin"])) dbAlice "tok").user ≠ none) ∧
    (ValidateTokenUser.mk "user-0" ["user"]).userId = (JwtPayload.mk "user-0" ["admin"]).userId :=
  ⟨(claim_C10_result_shape (jwtStub (JwtPayload.mk "user-0" ["admin"])) dbAlice "tok").1,
   (claim_C10_result_shape (jwtStub (JwtPayload.mk "user-0" ["admin"])) dbAlice "tok").2
     (JwtPayload.mk "user-0" ["admin"]) (ValidateTokenUser.mk "user-0" ["user"]) rfl (by decide)⟩

theorem signUp_roles_default (db : PrismaService) (salt : String) (dto : AuthSignUpRequestDto) :
    (match dto.roles with
     | some rs => AuthService.createUser db salt dto.username dto.email dto.password rs
     | none => AuthService.createUser db salt dto.username dto.email dto.password) =
    AuthService.createUser db salt dto.username dto.email dto.password
      (dto.roles.getD ["user"]) := by
  cases h : dto.roles <;> rfl

/-- C3: on Login, the unknown-email failure and the wrong-password failure
are one and the same UnauthorizedException with message Invalid
credentials, indistinguishable to the caller. -/
theorem claim_C3_uniform_invalid_credentials (jwt : JwtService) (db : PrismaService)
    (credential : AuthLoginRequestDto) :
    (prismaFindUniqueByEmail db credential.email = .ok none →
      AuthService.login jwt db credential =
        .error (.unauthorizedException "Invalid credentials")) ∧
    (∀ user, prismaFindUniqueByEmail db credential.email = .ok (some user) →
      bcryptCompare credential.password user.password = false →
      AuthService.login jwt db credential =
        .error (.unauthorizedException "Invalid credentials")) := by
  constructor
  · intro h
    unfold AuthService.login
    rw [h]
  · intro user h hcmp
    unfold AuthService.login
    rw [h]
    simp [hcmp]

/-- C3 witness: on a store holding only alice, login with an unknown email
and login with alice's email but a wrong password produce the identical
error value. -/
theorem claim_C3_uniform_invalid_credentials_witness :
    AuthService.login (jwtStub (JwtPayload.mk "x" [])) dbAlice
      (AuthLoginRequestDto.mk "bob@x.com" "whatever") =
      .error (.unauthorizedException "Invalid credentials") ∧
    AuthService.login (jwtStub (JwtPayload.mk "x" [])) dbAlice
      (AuthLoginRequestDto.mk "alice@x.com" "wrong") =
      .error (.unauthorizedException "Invalid credentials") :=
  ⟨(claim_C3_uniform_invalid_credentials (jwtStub (JwtPayload.mk "x" [])) dbAlice
      (AuthLoginRequestDto.mk "bob@x.com" "whatever")).1 (by decide),
   (claim_C3_uniform_invalid_credentials (jwtStub (JwtPayload.mk "x" [])) dbAlice
      (AuthLoginRequestDto.mk "alice@x.com" "wrong")).2 aliceStored (by decide) (by decide)⟩

/-- C4 counterexample: the claim fails for ValidateToken.  With a
well-verifying token and a store whose lookup raises, validateToken does
not propagate the store failure: the catch-all converts it into the
normal result valid:false/user:null. -/
theorem claim_C4_counterexample :
    (jwtStub (JwtPayload.mk "user-0" ["user"])).verify "tok" =
      .ok (JwtPayload.mk "user-0" ["user"]) ∧
    dbStoreDown.failFindUnique = some "DB_DOWN" ∧
    AuthService.validateToken (jwtStub (JwtPayload.mk "user-0" ["user"])) dbStoreDown "tok" =
      { valid := false, user := none } :=
  ⟨rfl, rfl, rfl⟩

/-- C4 amended: a store failure propagates unchanged to the caller for
Signup (both the pre-check query and the insert) and for Login; for
ValidateToken, however, the try/catch converts a store failure during the
fresh account lookup into the normal result valid:false/user:null instead
of propagating it. -/
theorem claim_C4_amended (db : PrismaService) (jwt : JwtService) (code : String) :
    (∀ credential, db.failFindUnique = some code →
      AuthService.login jwt db credential = .error (.storeError code)) ∧
    (∀ salt dto, ¬(dto.email = "" ∨ dto.username = "" ∨ dto.password = "") →
      db.failFindFirst = some code →
      AuthService.signUp db salt dto = (db, .error (.storeError code))) ∧
    (∀ salt dto, ¬(dto.email = "" ∨ dto.username = "" ∨ dto.password = "") →
      prismaFindFirstByEmail db dto.email = .ok none → db.failCreate = some code →
      AuthService.signUp db salt dto = (db, .error (.storeError code))) ∧
    (∀ token decoded, jwt.verify token = .ok decoded → db.failFindUnique = some code →
      AuthService.validateToken jwt db token = { valid := false, user := none }) := by
  refine ⟨?_, ?_, ?_, ?_⟩
  · intro credential h
    unfold AuthService.login prismaFindUniqueByEmail
    rw [h]
  · intro salt dto hfields h
    unfold AuthService.signUp prismaFindFirstByEmail
    rw [if_neg hfields, h]
  · intro salt dto hfields hpre hc
    unfold AuthService.signUp
    rw [if_neg hfields, hpre, signUp_roles_default db salt dto]
    unfold AuthService.createUser prismaUserCreate
    rw [hc]
  · intro token decoded hok h
    rw [validateToken_of_verify_ok jwt db token decoded hok]
    unfold prismaFindUniqueById
    rw [h]

/-- C4 amended witness: concrete store failures during login, both signup
store calls, and validateToken. -/
theorem claim_C4_amended_witness :
    AuthService.login jwtReject dbStoreDown (AuthLoginRequestDto.mk "alice@x.com" "secret1") =
      .error (.storeError "DB_DOWN") ∧
    AuthService.signUp dbStoreDown "salt1" signupAliceDto =
      (dbStoreDown, .error (.storeError "DB_DOWN")) ∧
    AuthService.signUp dbCreateDown "salt1" signupAliceDto =
      (dbCreateDown, .error (.storeError "DB_DOWN")) ∧
    AuthService.validateToken (jwtStub (JwtPayload.mk "user-0" ["user"])) dbStoreDown "tok" =
      { valid := false, user := none } :=
  ⟨(claim_C4_amended dbStoreDown jwtReject "DB_DOWN").1
     (AuthLoginRequestDto.mk "alice@x.com" "secret1") rfl,
   (claim_C4_amended dbStoreDown jwtReject "DB_DOWN").2.1 "salt1" signupAliceDto (by decide) rfl,
   (claim_C4_amended dbCreateDown jwtReject "DB_DOWN").2.2.1 "salt1" signupAliceDto
     (by decide) (by decide) rfl,
   (claim_C4_amended dbStoreDown (jwtStub (JwtPayload.mk "user-0" ["user"])) "DB_DOWN").2.2.2
     "tok" (JwtPayload.mk "user-0" ["user"]) rfl rfl⟩

/-- C5 counterexample: a signup whose email passes the pre-check but whose
insert hits the unique constraint (here: the username is already taken)
does not fail with the EmailInUse error; the raw constraint-violation
store error P2002 reaches the caller. -/
theorem claim_C5_counterexample :
    AuthService.signUp dbAlice "salt1"
      (AuthSignUpRequestDto.mk "alice" "bob@x.com" "pw2" none) =
      (dbAlice, .error (.storeError "P2002")) ∧
    ThrownError.storeError "P2002" ≠ ThrownError.error "Email already in use" :=
  ⟨by decide, by decide⟩

/-- C5 amended: when the email pre-check passes but the insert violates
the store's unique constraint, the Authenticator performs no translation:
signUp propagates the raw unique-constraint error P2002 unchanged instead
of the EmailInUse failure, and inserts nothing. -/
theorem claim_C5_amended (db : PrismaService) (salt : String) (dto : AuthSignUpRequestDto)
    (hfields : ¬(dto.email = "" ∨ dto.username = "" ∨ dto.password = ""))
    (hpre : prismaFindFirstByEmail db dto.email = .ok none)
    (hcreate : db.failCreate = none)
    (hcollide : db.users.any (fun u => u.email == dto.email || u.username == dto.username) = true) :
    AuthService.signUp db salt dto = (db, .error (.storeError "P2002")) := by
  unfold AuthService.signUp
  rw [if_neg hfields, hpre, signUp_roles_default db salt dto]
  unfold AuthService.createUser prismaUserCreate
  rw [hcreate]
  simp [hcollide]

/-- C5 amended witness: concrete colliding-username signup. -/
theorem claim_C5_amended_witness :
    AuthService.signUp dbAlice "salt1" (AuthSignUpRequestDto.mk "alice" "bob@x.com" "pw2" none) =
      (dbAlice, .error (.storeError "P2002")) :=
  claim_C5_amended dbAlice "salt1" (AuthSignUpRequestDto.mk "alice" "bob@x.com" "pw2" none)
    (by decide) (by decide) rfl (by decide)

/-- C6 counterexample: with JWT_SECRET unset, the startup factory silently
substitutes the built-in placeholder secret instead of treating the secret
as required, refuting the no-built-in-default part of the claim. -/
theorem claim_C6_counterexample :
    jwtModuleUseFactory (ConfigService.mk none none) =
      JwtModuleOptions.mk "your_jwt_secret_change_me" "1h" := rfl

/-- C6 amended: the token TTL defaults to 1h when unset, as claimed; the
signing secret, however, is not required: when JWT_SECRET is unset it is
silently replaced by the built-in fallback value. -/
theorem claim_C6_amended (config : ConfigService) :
    (config.jwtSecret = none →
      (jwtModuleUseFactory config).secret = "your_jwt_secret_change_me") ∧
    (∀ s, config.jwtSecret = some s → (jwtModuleUseFactory config).secret = s) ∧
    (config.jwtExpiresIn = none → (jwtModuleUseFactory config).expiresIn = "1h") ∧
    (∀ t, config.jwtExpiresIn = some t → (jwtModuleUseFactory config).expiresIn = t) := by
  refine ⟨?_, ?_, ?_, ?_⟩
  · intro h
    unfold jwtModuleUseFactory
    rw [h]
    rfl
  · intro s h
    unfold jwtModuleUseFactory
    rw [h]
    rfl
  · intro h
    unfold jwtModuleUseFactory
    rw [h]
    rfl
  · intro t h
    unfold jwtModuleUseFactory
    rw [h]
    rfl

/-- C6 amended witness: both fallbacks and both overrides at concrete
configurations. -/
theorem claim_C6_amended_witness :
    (jwtModuleUseFactory (ConfigService.mk none (some "2h"))).secret =
      "your_jwt_secret_change_me" ∧
    (jwtModuleUseFactory (ConfigService.mk (some "s3cret") none)).secret = "s3cret" ∧
    (jwtModuleUseFactory (ConfigService.mk (some "s3cret") none)).expiresIn = "1h" ∧
    (jwtModuleUseFactory (ConfigService.mk none (some "2h"))).expiresIn = "2h" :=
  ⟨(claim_C6_amended (ConfigService.mk none (some "2h"))).1 rfl,
   (claim_C6_amended (ConfigService.mk (some "s3cret") none)).2.1 "s3cret" rfl,
   (claim_C6_amended (ConfigService.mk (some "s3cret") none)).2.2.1 rfl,
   (claim_C6_amended (ConfigService.mk none (some "2h"))).2.2.2 "2h" rfl⟩

/-- C7: when the store already holds an account with the requested email,
signUp (with non-empty fields, against a store whose pre-check query
answers) fails with the EmailInUse error and leaves the store unchanged. -/
theorem claim_C7_email_in_use (db : PrismaService) (salt : String) (dto : AuthSignUpRequestDto)
    (hfields : ¬(dto.email = "" ∨ dto.username = "" ∨ dto.password = ""))
    (hflag : db.failFindFirst = none)
    (hfound : ∃ u ∈ db.users, u.email = dto.email) :
    AuthService.signUp db salt dto = (db, .error (.error "Email already in use")) := by
  unfold AuthService.signUp prismaFindFirstByEmail
  rw [if_neg hfields, hflag]
  cases hfind : db.users.find? (fun u => u.email == dto.email) with
  | none =>
    rw [List.find?_eq_none] at hfind
    obtain ⟨u, hu, he⟩ := hfound
    have hbeq : (u.email == dto.email) = true := beq_iff_eq.mpr he
    exact absurd hbeq (hfind u hu)
  | some u => rfl

/-- C7 witness: dbAlice is exactly the store produced by the first
successful Signup of alice; a second Signup with the same email and a
different username fails with EmailInUse and inserts nothing. -/
theorem claim_C7_email_in_use_witness :
    AuthService.signUp dbAlice "salt1" (AuthSignUpRequestDto.mk "bob" "alice@x.com" "pw2" none) =
      (dbAlice, .error (.error "Email already in use")) :=
  claim_C7_email_in_use dbAlice "salt1" (AuthSignUpRequestDto.mk "bob" "alice@x.com" "pw2" none)
    (by decide) rfl (by decide)

/-- C8: a signUp request with an empty username, email, or password fails
with the missing-required-fields error and leaves the store unchanged;
the equation holds even for a store all of whose calls would raise, so no
store query, hash, or insert is reached. -/
theorem claim_C8_invalid_input (db : PrismaService) (salt : String) (dto : AuthSignUpRequestDto)
    (hempty : dto.username = "" ∨ dto.email = "" ∨ dto.password = "") :
    AuthService.signUp db salt dto =
      (db, .error (.error "Missing required fields: email, username, password")) := by
  have hcond : dto.email = "" ∨ dto.username = "" ∨ dto.password = "" := by tauto
  unfold AuthService.signUp
  rw [if_pos hcond]

/-- C8 witness: an empty password against the all-failing store still
returns InvalidInput with that store unchanged, so nothing was queried. -/
theorem claim_C8_invalid_input_witness :
    AuthService.signUp dbStoreDown "salt1" (AuthSignUpRequestDto.mk "carol" "carol@x.com" "" none) =
      (dbStoreDown, .error (.error "Missing required fields: email, username, password")) :=
  claim_C8_invalid_input dbStoreDown "salt1"
    (AuthSignUpRequestDto.mk "carol" "carol@x.com" "" none) (by decide)

/-- C9: a successful signUp appends exactly one account and answers
exactly that account's public fields id, username, email and roles (the
response type has no password field, so neither the hash nor the
plaintext can appear); the stored password is the bcrypt hash, and roles
default to the single role user when the request omits them. -/
theorem claim_C9_public_response (db db2 : PrismaService) (salt : String)
    (dto : AuthSignUpRequestDto) (resp : AuthSignUpResponseDto)
    (h : AuthService.signUp db salt dto = (db2, .ok resp)) :
    ∃ user : UserData,
      db2.users = db.users ++ [user] ∧
      resp.id = user.id ∧ resp.username = user.username ∧
      resp.email = user.email ∧ resp.roles = user.roles ∧
      user.username = dto.username ∧ user.email = dto.email ∧
      user.password = bcryptHash dto.password salt ∧
      (dto.roles = none → user.roles = ["user"]) ∧
      (∀ rs, dto.roles = some rs → user.roles = rs) := by
  unfold AuthService.signUp at h
  by_cases hcond : dto.email = "" ∨ dto.username = "" ∨ dto.password = ""
  · rw [if_pos hcond] at h
    simp at h
  · rw [if_neg hcond, signUp_roles_default db salt dto] at h
    cases hfind : prismaFindFirstByEmail db dto.email with
    | error e => rw [hfind] at h; simp at h
    | ok o =>
      cases o with
      | some u => rw [hfind] at h; simp at h
      | none =>
        rw [hfind] at h
        cases hcr : AuthService.createUser db salt dto.username dto.email dto.password
            (dto.roles.getD ["user"]) with
        | error e => rw [hcr] at h; simp at h
        | ok p =>
          obtain ⟨db3, user⟩ := p
          rw [hcr] at h
          simp only [Prod.mk.injEq, Except.ok.injEq] at h
          obtain ⟨hdb, hresp⟩ := h
          subst hdb
          subst hresp
          unfold AuthService.createUser prismaUserCreate at hcr
          cases hfl : db.failCreate with
          | some code => rw [hfl] at hcr; cases hcr
          | none =>
            rw [hfl] at hcr
            by_cases hcol :
                (db.users.any fun u => u.email == dto.email || u.username == dto.username) = true
            · simp only [hcol, if_true] at hcr
              cases hcr
            · simp only [hcol, if_false, Bool.false_eq_true] at hcr
              simp only [Except.ok.injEq, Prod.mk.injEq] at hcr
              obtain ⟨hdb3, huser⟩ := hcr
              refine ⟨user, ?_, rfl, rfl, rfl, rfl, ?_, ?_, ?_, ?_, ?_⟩
              · rw [← hdb3, ← huser]
              · rw [← huser]
              · rw [← huser]
              · rw [← huser]
              · intro hnone
                rw [← huser, hnone]
                rfl
              · intro rs hrs
                rw [← huser, hrs]
                rfl

/-- C9 witness: the concrete first signup of alice with roles omitted. -/
theorem claim_C9_public_response_witness :
    ∃ user : UserData,
      dbAlice.users = dbEmpty.users ++ [user] ∧
      respAlice.id = user.id ∧ respAlice.username = user.username ∧
      respAlice.email = user.email ∧ respAlice.roles = user.roles ∧
      user.username = signupAliceDto.username ∧ user.email = signupAliceDto.email ∧
      user.password = bcryptHash signupAliceDto.password "salt0" ∧
      (signupAliceDto.roles = none → user.roles = ["user"]) ∧
      (∀ rs, signupAliceDto.roles = some rs → user.roles = rs) :=
  claim_C9_public_response dbEmpty dbAlice "salt0" signupAliceDto respAlice (by decide)

end AuthSpec
